import Mathlib

/-!
Verification development for the ProductSoup repository (a TripAdvisor
restaurant scraper).  The definitions below are a shallow embedding of the
two source files:

  * anihilator.py — class TripAdvisorScraper with the safe field extractors
    (_safe_extract_text, _safe_extract_attribute), the detail-page crawl
    (_extract_restaurant_details) and the paginated listing walk
    (scrape_restaurants);
  * soup.py — scrape_tripadvisor_moroccan_restaurants, of which only the
    link-resolution expression on its line 77 is needed here.

Playwright pages and elements are modelled as follows: an element carries
the set of atomic CSS selectors it matches, its inner text (an Except value,
since inner_text(timeout=...) may raise), and its attribute map (get_attribute
may raise, and returns None for a missing attribute, modelled by Option).
A selector string of the source such as
  'div[class*="biGQs"], .restaurant-name, h3'
is a comma-separated CSS union; it is embedded as the list of its
alternatives.  Per CSS/Playwright semantics a union locator matches elements
in document order and Locator.first takes the first match in document order.
A page or element subtree ("scope") is its list of elements in document
order.
-/

/- ---------------------------------------------------------------------
   Python string primitives used by the source (str.strip, str.lower,
   str.startswith, ", ".join), modelled on the character list so that all
   proofs reduce structurally.
--------------------------------------------------------------------- -/

/-- Characters stripped by Python str.strip() with no argument
(ASCII whitespace; the source data is ASCII). -/
def pySpace (c : Char) : Bool :=
  c = ' ' || c = '\t' || c = '\n' || c = '\r' || c = '\x0b' || c = '\x0c'

/-- Drop leading and trailing whitespace characters from a character list. -/
def stripChars (cs : List Char) : List Char :=
  ((cs.dropWhile pySpace).reverse.dropWhile pySpace).reverse

/-- Python str.strip(): remove surrounding whitespace. -/
def pyStrip (s : String) : String := String.mk (stripChars s.data)

/-- Python str.lower() (ASCII case folding suffices for the source data). -/
def pyLower (s : String) : String := String.mk (s.data.map Char.toLower)

/-- Does the character list s start with the character list p? -/
def listStarts : List Char → List Char → Bool
  | [], _ => true
  | _ :: _, [] => false
  | p :: ps, c :: cs => p = c && listStarts ps cs

/-- Python s.startswith(p). -/
def pyStartsWith (s p : String) : Bool := listStarts p.data s.data

/-- Python sep.join(l). -/
def joinWith (sep : String) : List String → String
  | [] => ""
  | [x] => x
  | x :: y :: xs => x ++ sep ++ joinWith sep (y :: xs)

/- ---------------------------------------------------------------------
   DOM and locator model.
--------------------------------------------------------------------- -/

/-- A DOM element: the atomic selectors it matches, its inner text
(inner_text(timeout=...) may raise, hence Except), and its attributes
(get_attribute may raise; a present attribute yields some value, a missing
one yields none, i.e. Python None). -/
structure Element where
  sel : List String
  innerText : Except Unit String
  getAttribute : String → Except Unit (Option String)

/-- Does the element match at least one alternative of the (comma-separated)
selector union cands? -/
def matchesAny (e : Element) (cands : List String) : Bool :=
  cands.any (fun c => e.sel.contains c)

/-- Locator over a scope: all elements matching the selector union, in
document order (page.locator(selector) / card.locator(selector)). -/
def locatorAll (scope : List Element) (cands : List String) : List Element :=
  scope.filter (fun e => matchesAny e cands)

/-- Locator.first composed with the count() > 0 check of the source:
the first element in document order matching any alternative of the union,
or none when the union matches nothing. -/
def locatorFirst (scope : List Element) (cands : List String) : Option Element :=
  (locatorAll scope cands).head?

/- ---------------------------------------------------------------------
   TripAdvisorScraper._safe_extract_text (anihilator.py lines 38-46) and
   TripAdvisorScraper._safe_extract_attribute (anihilator.py lines 48-56).
--------------------------------------------------------------------- -/

/-- Embedding of TripAdvisorScraper._safe_extract_text: take the first
element the selector union matches; if none (count() == 0) or if
inner_text raises (the except branch), return ""; otherwise return the
stripped inner text.  The function is total: no failure escapes it. -/
def safe_extract_text (scope : List Element) (cands : List String) : String :=
  match locatorFirst scope cands with
  | none => ""
  | some e =>
    match e.innerText with
    | Except.ok t => pyStrip t
    | Except.error _ => ""

/-- Embedding of TripAdvisorScraper._safe_extract_attribute: take the first
element the selector union matches; if none or if get_attribute raises,
return ""; if the attribute is missing (None), the source's
`get_attribute(...) or ""` coerces it to ""; otherwise return the attribute
value as the source does — without stripping. -/
def safe_extract_attribute (scope : List Element) (cands : List String)
    (attr : String) : String :=
  match locatorFirst scope cands with
  | none => ""
  | some e =>
    match e.getAttribute attr with
    | Except.ok (some v) => v
    | Except.ok none => ""
    | Except.error _ => ""

/- ---------------------------------------------------------------------
   Cuisine-tag extraction (anihilator.py lines 93-104).
--------------------------------------------------------------------- -/

/-- The non-data labels filtered out of the cuisine tags
(anihilator.py line 102). -/
def cuisineFilterTerms : List String := ["details", "menu", "photos"]

/-- Embedding of the cuisine list comprehension and cap
(anihilator.py lines 100-104):
keep a raw text node when its strip is non-empty and its lowercase is not a
filter term, strip each kept entry, and take at most the first 5. -/
def cuisineTags (terms raws : List String) : List String :=
  ((raws.filter
      (fun t => (pyStrip t != "") && !(terms.contains (pyLower t)))).map
    pyStrip).take 5

/-- The joined cuisine field: ", ".join(cuisine_tags[:5]). -/
def joinCuisine (terms raws : List String) : String :=
  joinWith ", " (cuisineTags terms raws)

/- ---------------------------------------------------------------------
   TripAdvisorScraper._extract_restaurant_details
   (anihilator.py lines 58-124).
--------------------------------------------------------------------- -/

/-- Selector union for the phone field (anihilator.py line 78). -/
def phoneSelectors : List String :=
  ["span:has-text(\"Phone\") + span", "[data-test-target=\"phone-number\"]"]

/-- Selector union for the rating field (anihilator.py line 84). -/
def ratingSelectors : List String :=
  ["span[class*=\"ZDEqb\"]", "[data-testid=\"review-rating\"] span"]

/-- Selector union for the address field (anihilator.py line 90). -/
def addressSelectors : List String :=
  ["a[href*=\"maps\"]", "[data-test-target=\"restaurant-detail-info\"] a[href*=\"geo\"]"]

/-- Selector union for the cuisine text nodes (anihilator.py lines 94-97). -/
def cuisineSelectors : List String :=
  ["div[data-test-target=\"restaurant-detail-info\"] span",
   ".restaurant-details-card span[class*=\"cuisine\"]"]

/-- Selector union for the price-range field (anihilator.py line 109). -/
def priceSelectors : List String :=
  ["[data-test-target=\"price-range\"]", "span:has-text(\"$\")"]

/-- Selector union for the review-count field (anihilator.py line 115). -/
def reviewsSelectors : List String :=
  ["span:has-text(\"review\")", "[data-testid=\"review-count\"]"]

/-- The six detail keys, in the insertion order of the details dict
(anihilator.py lines 60-67). -/
def detailKeys : List String :=
  ["Phone", "Rating", "Address", "Cuisine", "Price_Range", "Reviews_Count"]

/-- The details dict with the six detail keys bound to the given values,
in insertion order. -/
def mkDetails (phone rating address cuisine priceRange reviewsCount : String) :
    List (String × String) :=
  [("Phone", phone), ("Rating", rating), ("Address", address),
   ("Cuisine", cuisine), ("Price_Range", priceRange),
   ("Reviews_Count", reviewsCount)]

/-- The details dict as initialized at anihilator.py lines 60-67:
all six detail keys bound to the empty string. -/
def emptyDetails : List (String × String) := mkDetails "" "" "" "" "" ""

/-- Locator.all_inner_texts() on the cuisine union: the inner texts of every
matching element; raises (error) when the bulk evaluation fails. -/
def allInnerTexts (scope : List Element) (cands : List String) :
    Except Unit (List String) :=
  (locatorAll scope cands).mapM (fun e => e.innerText)

/-- Field extraction of _extract_restaurant_details on a successfully loaded
detail page (anihilator.py lines 75-116).  Phone, rating and address are
assigned first; the cuisine block runs only when the cuisine union matches
at least one element (count() > 0); if all_inner_texts raises there, the
enclosing except leaves the remaining fields at their initial "" values;
otherwise price range and review count are assigned last. -/
def extractDetailsFromPage (dom : List Element) : List (String × String) :=
  let phone := safe_extract_text dom phoneSelectors
  let rating := safe_extract_text dom ratingSelectors
  let address := safe_extract_text dom addressSelectors
  if (locatorAll dom cuisineSelectors).isEmpty then
    mkDetails phone rating address ""
      (safe_extract_text dom priceSelectors)
      (safe_extract_text dom reviewsSelectors)
  else
    match allInnerTexts dom cuisineSelectors with
    | Except.error _ => mkDetails phone rating address "" "" ""
    | Except.ok raws =>
      mkDetails phone rating address (joinCuisine cuisineFilterTerms raws)
        (safe_extract_text dom priceSelectors)
        (safe_extract_text dom reviewsSelectors)

/-- Outcome of the page acquisition and navigation prelude of
_extract_restaurant_details (anihilator.py lines 69-73):
browser.new_page() may raise before a page exists; goto /
wait_for_load_state may raise on the created page; or the detail page loads
with the given DOM. -/
inductive FetchOutcome where
  | newPageFailed : FetchOutcome
  | navFailed : FetchOutcome
  | loaded : List Element → FetchOutcome

/-- Embedding of TripAdvisorScraper._extract_restaurant_details.  Returns
the details dict together with the fate of the detail page handle:
none when new_page() itself raised (no handle was created), some true when
the created handle was closed by the finally block.  Some false (a leaked
handle) is never produced.  On a navigation failure the except branch is
taken before any field assignment, so the all-empty initial dict is
returned. -/
def extract_restaurant_details :
    FetchOutcome → List (String × String) × Option Bool
  | FetchOutcome.newPageFailed => (emptyDetails, none)
  | FetchOutcome.navFailed => (emptyDetails, some true)
  | FetchOutcome.loaded dom => (extractDetailsFromPage dom, some true)

/- ---------------------------------------------------------------------
   TripAdvisorScraper.scrape_restaurants (anihilator.py lines 126-256).
--------------------------------------------------------------------- -/

/-- Python value of a record entry: a str, an int (Page_Number), or None. -/
inductive PyVal where
  | vStr : String → PyVal
  | vInt : Nat → PyVal
  | vNone : PyVal
deriving DecidableEq

/-- Is the value a Python str? -/
def isVStr : PyVal → Bool
  | PyVal.vStr _ => true
  | _ => false

/-- A Python dict, as its ordered key/value list. -/
abbrev PyRecord := List (String × PyVal)

/-- Site origin used for link resolution (anihilator.py line 35). -/
def base_url : String := "https://www.tripadvisor.com"

/-- Link resolution of anihilator.py line 193:
full_link = f"(base_url)(link)" if link.startswith('/') else link. -/
def fullLink (link : String) : String :=
  if pyStartsWith link "/" then base_url ++ link else link

/-- Link resolution of soup.py line 77:
"Link": f"https://www.tripadvisor.com(link)" if link else None.
The href there comes from get_attribute, hence Option; the Python
truthiness test sends both None and "" to None, and every other href gets
the origin prefixed unconditionally. -/
def soupLink : Option String → Option String
  | none => none
  | some l => if l = "" then none else some ("https://www.tripadvisor.com" ++ l)

/-- Selector union for the card name (anihilator.py line 185). -/
def listingNameSelectors : List String :=
  ["div[class*=\"biGQs\"]", ".restaurant-name", "h3"]

/-- A restaurant card of the listing: its DOM subtree, and the outcome that
fetching its detail page would have (the browser behaviour at its URL). -/
structure Card where
  dom : List Element
  fetch : FetchOutcome

/-- Name extracted from a card (anihilator.py line 185). -/
def extractName (c : Card) : String :=
  safe_extract_text c.dom listingNameSelectors

/-- Href extracted from a card (anihilator.py line 189). -/
def extractLink (c : Card) : String :=
  safe_extract_attribute c.dom ["a"] "href"

/-- A card is viable when both its extracted name and href are non-empty
(the two skip guards on anihilator.py lines 186-191 do not fire). -/
def isViable (c : Card) : Bool :=
  (extractName c != "") && (extractLink c != "")

/-- Number of viable cards in a list. -/
def viableCount (cs : List Card) : Nat := (cs.filter isViable).length

/-- The record dict built at anihilator.py lines 198-204: the four listing
keys followed by the six detail keys spliced in with **details. -/
def mkRecord (name link : String) (pageNumber : Nat) (scrapedAt : String)
    (details : List (String × String)) : PyRecord :=
  ("Name", PyVal.vStr name) :: ("Link", PyVal.vStr link) ::
  ("Page_Number", PyVal.vInt pageNumber) :: ("Scraped_At", PyVal.vStr scrapedAt) ::
  details.map (fun p => (p.1, PyVal.vStr p.2))

/-- The ten keys of every emitted record, in insertion order. -/
def tenKeys : List String :=
  ["Name", "Link", "Page_Number", "Scraped_At",
   "Phone", "Rating", "Address", "Cuisine", "Price_Range", "Reviews_Count"]

/-- A record is well formed when its keys are exactly the ten record keys in
order and every detail key is bound to a Python str (never None). -/
def recordWellFormed (r : PyRecord) : Bool :=
  (r.map Prod.fst == tenKeys) &&
  r.all (fun p => !(detailKeys.contains p.1) || isVStr p.2)

/-- Embedding of the inner card loop of scrape_restaurants
(anihilator.py lines 177-216): for each card in order, stop when the
scraped count has reached the limit; skip the card when its name or its
href extracts empty; otherwise resolve the absolute link, crawl the detail
page, append the combined record and increment the count. -/
def processCards (pageNum : Nat) (now : String) (limit : Nat) :
    List Card → Nat → List PyRecord → List PyRecord × Nat
  | [], scraped, data => (data, scraped)
  | c :: rest, scraped, data =>
    if limit ≤ scraped then (data, scraped)
    else
      if extractName c = "" then processCards pageNum now limit rest scraped data
      else
        if extractLink c = "" then processCards pageNum now limit rest scraped data
        else
          processCards pageNum now limit rest (scraped + 1)
            (data ++ [mkRecord (extractName c) (fullLink (extractLink c))
              pageNum now (extract_restaurant_details c.fetch).1])

/-- One listing page as the walker observes it: whether
wait_for_selector('[data-test="restaurant-list"]') succeeds, the card
elements the cards union resolves, and whether some next-control selector
resolves to an enabled button whose click succeeds (the next_selectors
loop of anihilator.py lines 220-237 collapses to this boolean). -/
structure ListingPage where
  loadOk : Bool
  cards : List Card
  nextEnabled : Bool

/-- Embedding of the while loop of scrape_restaurants
(anihilator.py lines 156-241).  The site is the stream of listing-page
states the browser serves (index advanced by each successful next click —
a stale next control can serve the same state forever).  Fuel bounds the
number of loop iterations evaluated: a result of none means the loop was
still running after that many iterations; the Python loop has no such
bound.  On a terminating run the result carries the collected data, the
final scraped count and the number of next-page navigations performed. -/
def scrapeLoop (site : Nat → ListingPage) (now : String) (limit : Nat) :
    Nat → Nat → Nat → Nat → List PyRecord →
    Option (List PyRecord × Nat × Nat)
  | 0, _, _, _, _ => none
  | fuel + 1, pageIdx, scraped, navs, data =>
    if scraped < limit then
      let pg := site pageIdx
      if pg.loadOk = false then some (data, scraped, navs)
      else if pg.cards.isEmpty then some (data, scraped, navs)
      else
        let out := processCards (pageIdx + 1) now limit pg.cards scraped data
        if out.2 < limit then
          if pg.nextEnabled then
            scrapeLoop site now limit fuel (pageIdx + 1) out.2 (navs + 1) out.1
          else some (out.1, out.2, navs)
        else some (out.1, out.2, navs)
    else some (data, scraped, navs)

/- ---------------------------------------------------------------------
   Fixtures: the concrete elements, cards and sites used by the
   counterexamples and witnesses below.
--------------------------------------------------------------------- -/

/-- Element matching only the later candidate, appearing first in the DOM. -/
def c1ElemB : Element :=
  ⟨["c2"], Except.ok " B ", fun _ => Except.ok none⟩

/-- Element matching the earlier candidate, appearing second in the DOM. -/
def c1ElemA : Element :=
  ⟨["c1"], Except.ok " A ", fun _ => Except.ok none⟩

/-- Scope in which candidate "c1" resolves (to text " A ") but the element
matching the later candidate "c2" comes first in document order. -/
def c1Scope : List Element := [c1ElemB, c1ElemA]

/-- Element matching no candidate of the C1 witness. -/
def c1WitSkip : Element :=
  ⟨["div.other"], Except.ok "no", fun _ => Except.ok none⟩

/-- First matching element of the C1 witness. -/
def c1WitHit : Element :=
  ⟨["h3"], Except.ok " Tajine House ", fun _ => Except.ok none⟩

/-- Later matching element of the C1 witness, never consulted. -/
def c1WitLater : Element :=
  ⟨["h3"], Except.ok "LATER", fun _ => Except.ok none⟩

/-- Element of the C8 witness: it matches no candidate of the query. -/
def c8Elem : Element :=
  ⟨["span.phone"], Except.ok "+212", fun _ => Except.ok (some "v")⟩

/-- Element whose href attribute value carries surrounding whitespace. -/
def c9Elem : Element :=
  ⟨["a"], Except.ok "t",
    fun n => if n = "href" then Except.ok (some " /x ") else Except.ok none⟩

/-- Twenty raw cuisine text nodes, mixing genuine cuisine tags with the
non-data labels in various cases and with whitespace-only entries. -/
def c6Raws : List String :=
  ["Moroccan ", " Mediterranean", "Menu", "DETAILS", "photos", " Halal ",
   "Vegetarian Friendly", "Vegan Options", "Gluten Free Options", " ", "",
   "Soups", "Street Food", "Grill", "Cafe", "Fusion", "North African",
   "Middle Eastern", "Photos", "menu"]

/-- A card whose subtree resolves neither a name nor a href: the walker
skips it, so it never advances the scraped count. -/
def staleCard : Card := ⟨[], FetchOutcome.navFailed⟩

/-- A site whose every page state shows one non-viable card and an enabled
next control: a stale next control that clicks successfully forever while
the page content never changes. -/
def staleSite : Nat → ListingPage := fun _ => ⟨true, [staleCard], true⟩

/-- Card of the C3 witness: name and href resolve, the detail-page
navigation fails. -/
def c3Card : Card :=
  ⟨[⟨["h3"], Except.ok "Dar Zellij", fun _ => Except.ok none⟩,
    ⟨["a"], Except.ok "x",
      fun n => if n = "href"
        then Except.ok (some "/Restaurant_Review-g293734-d1")
        else Except.ok none⟩],
   FetchOutcome.navFailed⟩

/-- One viable card for the C4 witness: name and href resolve; its detail
page loads with an empty DOM. -/
def c4Card : Card :=
  ⟨[⟨["h3"], Except.ok "Al Fassia", fun _ => Except.ok none⟩,
    ⟨["a"], Except.ok "",
      fun n => if n = "href" then Except.ok (some "/r") else Except.ok none⟩],
   FetchOutcome.loaded []⟩

/-- Site of the C4 witness: 5 viable cards on the first page, next
enabled. -/
def c4Site : Nat → ListingPage :=
  fun _ => ⟨true, [c4Card, c4Card, c4Card, c4Card, c4Card], true⟩

/-- Card of the C5 witness: a name resolves but no href does. -/
def c5Card : Card :=
  ⟨[⟨["h3"], Except.ok "NoLink Cafe", fun _ => Except.ok none⟩],
   FetchOutcome.newPageFailed⟩

/-- Card of the C10 witness: a viable card whose detail navigation
fails. -/
def c10Card : Card :=
  ⟨[⟨["h3"], Except.ok " Le Jardin ", fun _ => Except.ok none⟩,
    ⟨["a"], Except.ok "",
      fun n => if n = "href"
        then Except.ok (some "/Restaurant_Review-g2-d2")
        else Except.ok none⟩],
   FetchOutcome.navFailed⟩

/-- Site of the C10 witness: one page, one viable card, no next page. -/
def c10Site : Nat → ListingPage := fun _ => ⟨true, [c10Card], false⟩

/-- Element of the C10 witness whose href attribute is missing (None). -/
def c10NoAttrElem : Element := ⟨["a"], Except.ok "x", fun _ => Except.ok none⟩

/- ---------------------------------------------------------------------
   Claim C1 — candidate order of the safe extractors.
--------------------------------------------------------------------- -/

/-- C1 counterexample: the claim says extraction with candidates
["c1", "c2"] returns the value resolved from the earliest resolvable
candidate — here "c1", whose value is "A" — and never from a later
candidate.  But the source joins the candidates into one union locator and
takes the first match in document order, so it returns "B", the value of
the later candidate "c2". -/
theorem c1_counterexample :
    safe_extract_text c1Scope ["c1"] = "A" ∧
    safe_extract_text c1Scope ["c2"] = "B" ∧
    safe_extract_text c1Scope ["c1", "c2"] = "B" ∧
    ("B" : String) ≠ "A" :=
  ⟨rfl, rfl, rfl, by decide⟩

/-- C1 (amended): the candidate list is joined into a single union locator,
so extraction returns the (trimmed text / raw attribute) value of the first
element in document order that matches any candidate; elements after that
first match are never consulted (the right-hand sides below do not mention
post), and when exactly one candidate is resolvable the result is that
candidate's value. -/
theorem c1_union_document_order (pre post : List Element) (e : Element)
    (cands : List String) (attr : String)
    (hpre : ∀ x ∈ pre, matchesAny x cands = false)
    (he : matchesAny e cands = true) :
    locatorFirst (pre ++ e :: post) cands = some e ∧
    safe_extract_text (pre ++ e :: post) cands =
      (match e.innerText with
       | Except.ok t => pyStrip t
       | Except.error _ => "") ∧
    safe_extract_attribute (pre ++ e :: post) cands attr =
      (match e.getAttribute attr with
       | Except.ok (some v) => v
       | Except.ok none => ""
       | Except.error _ => "") := by
  have hfirst : locatorFirst (pre ++ e :: post) cands = some e := by
    unfold locatorFirst locatorAll
    rw [List.filter_append]
    have h1 : pre.filter (fun x => matchesAny x cands) = [] :=
      List.filter_eq_nil_iff.mpr (by intro a ha; simp [hpre a ha])
    rw [h1, List.nil_append, List.filter_cons]
    simp [he]
  refine ⟨hfirst, ?_, ?_⟩
  · unfold safe_extract_text
    rw [hfirst]
  · unfold safe_extract_attribute
    rw [hfirst]

/-- C1 witness: the amended theorem applied to a concrete scope made of a
non-matching element, a matching element and a later matching element. -/
theorem c1_witness :
    safe_extract_text ([c1WitSkip] ++ c1WitHit :: [c1WitLater])
      [".restaurant-name", "h3"] = "Tajine House" := by
  have h := c1_union_document_order [c1WitSkip] [c1WitLater] c1WitHit
    [".restaurant-name", "h3"] "href" (by decide) (by decide)
  rw [h.2.1]
  rfl

/- ---------------------------------------------------------------------
   Claim C8 — exhausted candidates resolve to the empty string.
--------------------------------------------------------------------- -/

/-- C8: when every candidate fails to resolve — the union locator matches
nothing (not-found), or the one matched element's operations raise
(timeout, detached node) — both safe extractors return the empty string.
Both are total String-valued functions: the except branches of the source
are the none / error cases below, so no failure is surfaced past their
boundary. -/
theorem c8_miss_is_empty (scope : List Element) (cands : List String)
    (attr : String)
    (h : locatorFirst scope cands = none ∨
      ∀ e, locatorFirst scope cands = some e →
        e.innerText = Except.error () ∧ e.getAttribute attr = Except.error ()) :
    safe_extract_text scope cands = "" ∧
    safe_extract_attribute scope cands attr = "" := by
  cases h with
  | inl h0 =>
    constructor <;> simp [safe_extract_text, safe_extract_attribute, h0]
  | inr hf =>
    cases hcase : locatorFirst scope cands with
    | none =>
      constructor <;> simp [safe_extract_text, safe_extract_attribute, hcase]
    | some e =>
      obtain ⟨h1, h2⟩ := hf e hcase
      constructor <;>
        simp [safe_extract_text, safe_extract_attribute, hcase, h1, h2]

/-- C8 witness: on a scope whose only element matches neither candidate,
both extractors return the empty string. -/
theorem c8_witness :
    safe_extract_text [c8Elem] ["q1", "q2"] = "" ∧
    safe_extract_attribute [c8Elem] ["q1", "q2"] "href" = "" :=
  c8_miss_is_empty [c8Elem] ["q1", "q2"] "href" (Or.inl rfl)

/- ---------------------------------------------------------------------
   Claim C9 — trimming of successfully extracted values.
--------------------------------------------------------------------- -/

/-- C9 counterexample: the claim says the value returned on a successful
resolution is trimmed for attribute extraction too, but the source returns
get_attribute's value without strip: the extracted attribute " /x " keeps
its surrounding whitespace and differs from its trimmed form. -/
theorem c9_counterexample :
    safe_extract_attribute [c9Elem] ["a"] "href" = " /x " ∧
    pyStrip " /x " ≠ " /x " :=
  ⟨rfl, by decide⟩

/-- C9 (amended): on a successful resolution, text extraction returns the
stripped inner text, while attribute extraction returns the raw attribute
value unchanged (no trimming). -/
theorem c9_text_trimmed_attribute_raw (scope : List Element)
    (cands : List String) (attr : String) (e : Element) (t v : String)
    (hfirst : locatorFirst scope cands = some e) :
    (e.innerText = Except.ok t → safe_extract_text scope cands = pyStrip t) ∧
    (e.getAttribute attr = Except.ok (some v) →
      safe_extract_attribute scope cands attr = v) := by
  constructor
  · intro ht; simp [safe_extract_text, hfirst, ht]
  · intro hv; simp [safe_extract_attribute, hfirst, hv]

/-- C9 witness: the amended theorem at a concrete element whose text is
"t" and whose href is " /x ". -/
theorem c9_witness :
    safe_extract_text [c9Elem] ["a"] = pyStrip "t" ∧
    safe_extract_attribute [c9Elem] ["a"] "href" = " /x " := by
  have h := c9_text_trimmed_attribute_raw [c9Elem] ["a"] "href" c9Elem
    "t" " /x " rfl
  exact ⟨h.1 rfl, h.2 rfl⟩

/- ---------------------------------------------------------------------
   Claim C6 — cuisine-tag filtering, trimming, cap, and filter-term order.
--------------------------------------------------------------------- -/

/-- C6: cuisine extraction is invariant under reordering of the non-data
filter terms, yields at most 5 tags, and every kept tag is the strip of a
raw text node whose strip is non-empty and whose lowercase is not one of
the filter terms (entries equal to a filter term case-insensitively are
dropped); the Cuisine field is the comma join of those capped tags. -/
theorem c6_cuisine_filter_cap (raws terms : List String)
    (hp : terms.Perm cuisineFilterTerms) :
    joinCuisine terms raws = joinCuisine cuisineFilterTerms raws ∧
    (cuisineTags cuisineFilterTerms raws).length ≤ 5 ∧
    (∀ t ∈ cuisineTags cuisineFilterTerms raws, ∃ r, r ∈ raws ∧
      t = pyStrip r ∧ cuisineFilterTerms.contains (pyLower r) = false ∧
      pyStrip r ≠ "") ∧
    joinCuisine cuisineFilterTerms raws =
      joinWith ", " (cuisineTags cuisineFilterTerms raws) := by
  have hc : ∀ x, terms.contains x = cuisineFilterTerms.contains x := by
    intro x
    rw [Bool.eq_iff_iff]
    constructor
    · intro h
      exact List.elem_iff.mpr (hp.mem_iff.mp (List.elem_iff.mp h))
    · intro h
      exact List.elem_iff.mpr (hp.mem_iff.mpr (List.elem_iff.mp h))
  have htags : cuisineTags terms raws = cuisineTags cuisineFilterTerms raws := by
    unfold cuisineTags
    congr 1
    congr 1
    exact List.filter_congr (fun x _ => by rw [hc (pyLower x)])
  refine ⟨by unfold joinCuisine; rw [htags], List.length_take_le 5 _, ?_, rfl⟩
  intro t ht
  unfold cuisineTags at ht
  obtain ⟨r, hr, hmap⟩ := List.mem_map.mp (List.mem_of_mem_take ht)
  obtain ⟨hraws, hpred⟩ := List.mem_filter.mp hr
  simp only [Bool.and_eq_true] at hpred
  obtain ⟨hne, hnotin⟩ := hpred
  refine ⟨r, hraws, hmap.symm, ?_, bne_iff_ne.mp hne⟩
  rw [← Bool.not_eq_true' (cuisineFilterTerms.contains (pyLower r))]
  exact hnotin

/-- C6 witness: the theorem applied with a reordering of the filter terms
and 20 raw matches; the join of the capped and filtered tags evaluates to
5 trimmed tags. -/
theorem c6_witness :
    c6Raws.length = 20 ∧
    joinCuisine ["photos", "details", "menu"] c6Raws =
      joinCuisine cuisineFilterTerms c6Raws ∧
    (cuisineTags cuisineFilterTerms c6Raws).length ≤ 5 ∧
    joinCuisine cuisineFilterTerms c6Raws =
      "Moroccan, Mediterranean, Halal, Vegetarian Friendly, Vegan Options" := by
  have h := c6_cuisine_filter_cap c6Raws ["photos", "details", "menu"]
    (by decide)
  exact ⟨by decide, h.1, h.2.1, by decide⟩

/- ---------------------------------------------------------------------
   Claim C7 — link resolution.
--------------------------------------------------------------------- -/

/-- Appending strings concatenates their character data. -/
theorem string_data_append (a b : String) :
    (a ++ b).data = a.data ++ b.data := by
  cases a; cases b; rfl

/-- A character-list prefix of a list is a prefix of any extension. -/
theorem listStarts_append (p a b : List Char) (h : listStarts p a = true) :
    listStarts p (a ++ b) = true := by
  induction p generalizing a with
  | nil => simp [listStarts]
  | cons x xs ih =>
    cases a with
    | nil => simp [listStarts] at h
    | cons c cs =>
      simp only [List.cons_append, listStarts, Bool.and_eq_true] at h ⊢
      exact ⟨h.1, ih cs h.2⟩

/-- C7 counterexample: soup.py line 77 prefixes the origin onto every
non-empty href unconditionally, so an already-absolute href does not pass
through unchanged there — it is double-prefixed. -/
theorem c7_counterexample :
    soupLink (some "https://www.tripadvisor.com/Restaurant_Review-g1-d1-x") =
      some "https://www.tripadvisor.comhttps://www.tripadvisor.com/Restaurant_Review-g1-d1-x" ∧
    soupLink (some "https://www.tripadvisor.com/Restaurant_Review-g1-d1-x") ≠
      some "https://www.tripadvisor.com/Restaurant_Review-g1-d1-x" :=
  ⟨rfl, by decide⟩

/-- C7 (amended): in scrape_restaurants (anihilator.py line 193) a
path-relative href starting with "/" is prefixed with the site's base
origin — the result then starts with "https://", hence is absolute — and
any other href, in particular an already-absolute one, passes through
unchanged; in soup.py line 77 every non-empty href is prefixed with the
origin unconditionally (so an already-absolute href is not passed through
unchanged) and a missing or empty href yields None. -/
theorem c7_link_resolution (l s : String) :
    (pyStartsWith l "/" = true → fullLink l = base_url ++ l) ∧
    (pyStartsWith l "/" = false → fullLink l = l) ∧
    (pyStartsWith l "/" = true →
      pyStartsWith (fullLink l) "https://" = true) ∧
    (s ≠ "" → soupLink (some s) =
      some ("https://www.tripadvisor.com" ++ s)) ∧
    soupLink none = none ∧
    soupLink (some "") = none := by
  refine ⟨?_, ?_, ?_, ?_, rfl, rfl⟩
  · intro h; simp [fullLink, h]
  · intro h; simp [fullLink, h]
  · intro h
    have h1 : fullLink l = base_url ++ l := by simp [fullLink, h]
    rw [h1]
    unfold pyStartsWith
    rw [string_data_append]
    exact listStarts_append _ _ _ (by decide)
  · intro hs; simp [soupLink, hs]

/-- C7 witness: the amended theorem at the spec's example href, an
already-absolute href, and a non-empty soup.py href. -/
theorem c7_witness :
    fullLink "/Restaurant_Review-g1-d1-x" =
      "https://www.tripadvisor.com/Restaurant_Review-g1-d1-x" ∧
    pyStartsWith (fullLink "/Restaurant_Review-g1-d1-x") "https://" = true ∧
    fullLink "https://example.com/x" = "https://example.com/x" ∧
    soupLink (some "/a") = some "https://www.tripadvisor.com/a" := by
  have h := c7_link_resolution "/Restaurant_Review-g1-d1-x" "/a"
  have h2 := c7_link_resolution "https://example.com/x" "/a"
  exact ⟨(h.1 (by decide)).trans rfl, h.2.2.1 (by decide),
    h2.2.1 (by decide), (h.2.2.2.1 (by decide)).trans rfl⟩

/- ---------------------------------------------------------------------
   Helper lemmas about the card loop and the pagination loop.
--------------------------------------------------------------------- -/

/-- Once the limit is reached, the card loop changes nothing. -/
theorem processCards_ge (pn : Nat) (now : String) (limit : Nat)
    (cards : List Card) (s : Nat) (d : List PyRecord) (h : limit ≤ s) :
    processCards pn now limit cards s d = (d, s) := by
  cases cards with
  | nil => rfl
  | cons c rest => simp [processCards, h]

/-- The scraped count after the card loop is the old count plus the number
of viable cards, capped at the limit. -/
theorem processCards_scraped (pn : Nat) (now : String) (limit : Nat) :
    ∀ (cards : List Card) (s : Nat) (d : List PyRecord), s ≤ limit →
    (processCards pn now limit cards s d).2 =
      min (s + viableCount cards) limit := by
  intro cards
  induction cards with
  | nil =>
    intro s d hs
    simp [processCards, viableCount]
    omega
  | cons c rest ih =>
    intro s d hs
    by_cases hlim : limit ≤ s
    · rw [processCards_ge pn now limit (c :: rest) s d hlim]
      have : s = limit := Nat.le_antisymm hs hlim
      simp [this]
    · have hslt : s < limit := Nat.lt_of_not_le hlim
      by_cases hn : extractName c = ""
      · have hv : isViable c = false := by simp [isViable, hn]
        have hstep : processCards pn now limit (c :: rest) s d =
            processCards pn now limit rest s d := by
          simp [processCards, hlim, hn]
        rw [hstep, ih s d hs]
        have : viableCount (c :: rest) = viableCount rest := by
          simp [viableCount, List.filter_cons, hv]
        rw [this]
      · by_cases hl : extractLink c = ""
        · have hv : isViable c = false := by simp [isViable, hl]
          have hstep : processCards pn now limit (c :: rest) s d =
              processCards pn now limit rest s d := by
            simp [processCards, hlim, hn, hl]
          rw [hstep, ih s d hs]
          have : viableCount (c :: rest) = viableCount rest := by
            simp [viableCount, List.filter_cons, hv]
          rw [this]
        · have hv : isViable c = true := by simp [isViable, hn, hl]
          have hstep : processCards pn now limit (c :: rest) s d =
              processCards pn now limit rest (s + 1)
                (d ++ [mkRecord (extractName c) (fullLink (extractLink c))
                  pn now (extract_restaurant_details c.fetch).1]) := by
            simp [processCards, hlim, hn, hl]
          rw [hstep, ih (s + 1) _ hslt]
          have : viableCount (c :: rest) = viableCount rest + 1 := by
            simp [viableCount, List.filter_cons, hv]
          rw [this]
          omega

/-- The card loop appends one record per emitted count. -/
theorem processCards_length (pn : Nat) (now : String) (limit : Nat) :
    ∀ (cards : List Card) (s : Nat) (d : List PyRecord), s ≤ limit →
    ((processCards pn now limit cards s d).1).length =
      d.length + ((processCards pn now limit cards s d).2 - s) := by
  intro cards
  induction cards with
  | nil => intro s d hs; simp [processCards]
  | cons c rest ih =>
    intro s d hs
    by_cases hlim : limit ≤ s
    · rw [processCards_ge pn now limit (c :: rest) s d hlim]
      simp
    · have hslt : s < limit := Nat.lt_of_not_le hlim
      by_cases hn : extractName c = ""
      · have hstep : processCards pn now limit (c :: rest) s d =
            processCards pn now limit rest s d := by
          simp [processCards, hlim, hn]
        rw [hstep, ih s d hs]
      · by_cases hl : extractLink c = ""
        · have hstep : processCards pn now limit (c :: rest) s d =
              processCards pn now limit rest s d := by
            simp [processCards, hlim, hn, hl]
          rw [hstep, ih s d hs]
        · have hstep : processCards pn now limit (c :: rest) s d =
              processCards pn now limit rest (s + 1)
                (d ++ [mkRecord (extractName c) (fullLink (extractLink c))
                  pn now (extract_restaurant_details c.fetch).1]) := by
            simp [processCards, hlim, hn, hl]
          rw [hstep, ih (s + 1) _ hslt]
          have hmono := processCards_scraped pn now limit rest (s + 1)
            (d ++ [mkRecord (extractName c) (fullLink (extractLink c))
              pn now (extract_restaurant_details c.fetch).1]) hslt
          simp only [List.length_append, List.length_singleton]
          omega

/-- Every record produced by the card loop was already in the accumulator
or is a record dict built by mkRecord from a detail crawl. -/
theorem processCards_mem (pn : Nat) (now : String) (limit : Nat) :
    ∀ (cards : List Card) (s : Nat) (d : List PyRecord) (rec : PyRecord),
    rec ∈ (processCards pn now limit cards s d).1 →
    rec ∈ d ∨ ∃ nm l f, rec =
      mkRecord nm l pn now (extract_restaurant_details f).1 := by
  intro cards
  induction cards with
  | nil => intro s d rec h; exact Or.inl h
  | cons c rest ih =>
    intro s d rec h
    by_cases hlim : limit ≤ s
    · rw [processCards_ge pn now limit (c :: rest) s d hlim] at h
      exact Or.inl h
    · by_cases hn : extractName c = ""
      · rw [show processCards pn now limit (c :: rest) s d =
            processCards pn now limit rest s d from by
          simp [processCards, hlim, hn]] at h
        exact ih s d rec h
      · by_cases hl : extractLink c = ""
        · rw [show processCards pn now limit (c :: rest) s d =
              processCards pn now limit rest s d from by
            simp [processCards, hlim, hn, hl]] at h
          exact ih s d rec h
        · rw [show processCards pn now limit (c :: rest) s d =
              processCards pn now limit rest (s + 1)
                (d ++ [mkRecord (extractName c) (fullLink (extractLink c))
                  pn now (extract_restaurant_details c.fetch).1]) from by
            simp [processCards, hlim, hn, hl]] at h
          rcases ih (s + 1) _ rec h with hmem | hnew
          · rcases List.mem_append.mp hmem with hd | hone
            · exact Or.inl hd
            · refine Or.inr ⟨extractName c, fullLink (extractLink c),
                c.fetch, ?_⟩
              simpa using hone
          · exact Or.inr hnew

/-- The details dict always has the shape mkDetails applied to six values. -/
theorem details_shape (f : FetchOutcome) :
    ∃ p r a c pr rc, (extract_restaurant_details f).1 =
      mkDetails p r a c pr rc := by
  cases f with
  | newPageFailed => exact ⟨"", "", "", "", "", "", rfl⟩
  | navFailed => exact ⟨"", "", "", "", "", "", rfl⟩
  | loaded dom =>
    show ∃ p r a c pr rc, extractDetailsFromPage dom = mkDetails p r a c pr rc
    simp only [extractDetailsFromPage]
    split
    · exact ⟨_, _, _, _, _, _, rfl⟩
    · split
      · exact ⟨_, _, _, _, _, _, rfl⟩
      · exact ⟨_, _, _, _, _, _, rfl⟩

/-- A record dict built from any six detail values is well formed. -/
theorem mkRecord_wellFormed (nm l : String) (pn : Nat) (now : String)
    (p r a c pr rc : String) :
    recordWellFormed (mkRecord nm l pn now (mkDetails p r a c pr rc)) =
      true := rfl

/-- A record dict built from any detail crawl is well formed. -/
theorem record_wf_of_fetch (nm l : String) (pn : Nat) (now : String)
    (f : FetchOutcome) :
    recordWellFormed
      (mkRecord nm l pn now (extract_restaurant_details f).1) = true := by
  obtain ⟨p, r, a, c, pr, rc, h⟩ := details_shape f
  rw [h]
  exact mkRecord_wellFormed nm l pn now p r a c pr rc

/-- Every record in the data of a terminating run of the pagination loop
was in the initial accumulator or is a mkRecord of a detail crawl. -/
theorem scrapeLoop_mem (site : Nat → ListingPage) (now : String)
    (limit : Nat) :
    ∀ (fuel pageIdx scraped navs : Nat) (data : List PyRecord)
      (out : List PyRecord × Nat × Nat),
    scrapeLoop site now limit fuel pageIdx scraped navs data = some out →
    ∀ rec ∈ out.1, rec ∈ data ∨ ∃ pn nm l f, rec =
      mkRecord nm l pn now (extract_restaurant_details f).1 := by
  intro fuel
  induction fuel with
  | zero =>
    intro pageIdx scraped navs data out h
    simp [scrapeLoop] at h
  | succ fuel ih =>
    intro pageIdx scraped navs data out h rec hrec
    rw [scrapeLoop] at h
    by_cases h1 : scraped < limit
    · rw [if_pos h1] at h
      by_cases h2 : (site pageIdx).loadOk = false
      · rw [if_pos h2] at h
        cases h
        exact Or.inl hrec
      · rw [if_neg h2] at h
        by_cases h3 : (site pageIdx).cards.isEmpty
        · rw [if_pos h3] at h
          cases h
          exact Or.inl hrec
        · rw [if_neg h3] at h
          by_cases h4 : (processCards (pageIdx + 1) now limit
              (site pageIdx).cards scraped data).2 < limit
          · rw [if_pos h4] at h
            by_cases h5 : (site pageIdx).nextEnabled
            · rw [if_pos h5] at h
              rcases ih (pageIdx + 1) _ (navs + 1) _ out h rec hrec with
                hmem | hnew
              · rcases processCards_mem (pageIdx + 1) now limit
                  (site pageIdx).cards scraped data rec hmem with hd | hone
                · exact Or.inl hd
                · obtain ⟨nm, l, f, he⟩ := hone
                  exact Or.inr ⟨pageIdx + 1, nm, l, f, he⟩
              · exact Or.inr hnew
            · rw [if_neg h5] at h
              cases h
              rcases processCards_mem (pageIdx + 1) now limit
                (site pageIdx).cards scraped data rec hrec with hd | hone
              · exact Or.inl hd
              · obtain ⟨nm, l, f, he⟩ := hone
                exact Or.inr ⟨pageIdx + 1, nm, l, f, he⟩
          · rw [if_neg h4] at h
            cases h
            rcases processCards_mem (pageIdx + 1) now limit
              (site pageIdx).cards scraped data rec hrec with hd | hone
            · exact Or.inl hd
            · obtain ⟨nm, l, f, he⟩ := hone
              exact Or.inr ⟨pageIdx + 1, nm, l, f, he⟩
    · rw [if_neg h1] at h
      cases h
      exact Or.inl hrec

/- ---------------------------------------------------------------------
   Claim C2 — termination of the pagination loop.
--------------------------------------------------------------------- -/

/-- On the stale site the loop body never terminates: it consumes any
amount of fuel. -/
theorem stale_loop (fuel : Nat) :
    ∀ (pageIdx navs : Nat) (data : List PyRecord),
    scrapeLoop staleSite "" 1 fuel pageIdx 0 navs data = none := by
  induction fuel with
  | zero => intro pageIdx navs data; rfl
  | succ fuel ih =>
    intro pageIdx navs data
    have hp : processCards (pageIdx + 1) "" 1 [staleCard] 0 data =
        (data, 0) := rfl
    rw [scrapeLoop]
    simp only [staleSite, hp]
    simp [ih (pageIdx + 1) (navs + 1) data]

/-- C2: the claim says the pagination loop terminates within a bounded
number of steps even when a next control reports enabled indefinitely
without the page content advancing, a no-progress guard firing instead of
looping forever.  The source has no such guard: on the stale site (every
page shows one card lacking name and href, next always enabled and
clickable, content never advancing) the while loop of scrape_restaurants
never terminates — for every iteration bound the fueled embedding is still
running, the page counter growing without bound while the scraped count
stays 0 below the limit 1. -/
theorem c2_stale_next_loops_forever :
    ∀ fuel, scrapeLoop staleSite "" 1 fuel 0 0 0 [] = none :=
  fun fuel => stale_loop fuel 0 0 []

/- ---------------------------------------------------------------------
   Claim C3 — detail-fetch failure is recovered locally.
--------------------------------------------------------------------- -/

/-- C3: when a card's detail-page fetch fails at navigation, the detail
crawl returns the all-empty six-field record instead of propagating, the
created detail page handle is closed (and no outcome ever leaves a created
handle open), and the card loop still emits exactly one record for that
card, with the extracted name and resolved link populated and the six
detail fields empty. -/
theorem c3_detail_failure_recovered (c : Card) (pn s limit : Nat)
    (now : String) (d : List PyRecord)
    (hf : c.fetch = FetchOutcome.navFailed)
    (hn : extractName c ≠ "") (hl : extractLink c ≠ "") (hs : s < limit) :
    extract_restaurant_details c.fetch = (emptyDetails, some true) ∧
    (∀ f, (extract_restaurant_details f).2 ≠ some false) ∧
    emptyDetails.map Prod.fst = detailKeys ∧
    processCards pn now limit [c] s d =
      (d ++ [mkRecord (extractName c) (fullLink (extractLink c))
        pn now emptyDetails], s + 1) := by
  refine ⟨by rw [hf]; rfl, ?_, rfl, ?_⟩
  · intro f
    cases f <;> simp [extract_restaurant_details]
  · have h1 : ¬ limit ≤ s := Nat.not_le.mpr hs
    simp [processCards, h1, hn, hl, hf, extract_restaurant_details]

/-- C3 witness: the theorem at a concrete card whose detail navigation
fails; the walk emits one record with name and absolute link populated and
the six detail fields empty. -/
theorem c3_witness :
    extract_restaurant_details c3Card.fetch = (emptyDetails, some true) ∧
    processCards 1 "2026-10-12T00:00:00" 10 [c3Card] 0 [] =
      ([mkRecord "Dar Zellij"
        "https://www.tripadvisor.com/Restaurant_Review-g293734-d1"
        1 "2026-10-12T00:00:00" emptyDetails], 1) := by
  have h := c3_detail_failure_recovered c3Card 1 0 10 "2026-10-12T00:00:00"
    [] rfl (by decide) (by decide) (by decide)
  refine ⟨h.1, ?_⟩
  rw [h.2.2.2]
  rfl

/- ---------------------------------------------------------------------
   Claim C4 — the limit stops the walk with no further navigation.
--------------------------------------------------------------------- -/

/-- C4: with a positive limit and at least limit viable cards on the first
listing page, the walk terminates in its first iteration emitting exactly
limit records, and the number of next-page navigations performed is 0. -/
theorem c4_limit_stops_walk (site : Nat → ListingPage) (now : String)
    (limit fuel : Nat) (h1 : 0 < limit)
    (h2 : limit ≤ viableCount (site 0).cards)
    (h3 : (site 0).loadOk = true) :
    ∃ data, scrapeLoop site now limit (fuel + 1) 0 0 0 [] =
      some (data, limit, 0) ∧ data.length = limit := by
  have hne : (site 0).cards.isEmpty = false := by
    cases hc : (site 0).cards with
    | nil =>
      exfalso
      rw [hc] at h2
      simp [viableCount] at h2
      omega
    | cons a l => rfl
  have hs := processCards_scraped 1 now limit (site 0).cards 0 []
    (Nat.zero_le _)
  have hs2 : (processCards 1 now limit (site 0).cards 0 []).2 = limit := by
    rw [hs]
    omega
  have hlen := processCards_length 1 now limit (site 0).cards 0 []
    (Nat.zero_le _)
  refine ⟨(processCards 1 now limit (site 0).cards 0 []).1, ?_, ?_⟩
  · rw [scrapeLoop]
    simp only [h1, if_pos, h3, hne, Nat.zero_add]
    simp [hs2]
  · rw [hlen, hs2]
    simp

/-- C4 witness (end-to-end scenario B): limit 2 against a listing with 5
viable cards on page 1 gives exactly 2 records and 0 next-page
navigations. -/
theorem c4_witness :
    ∃ data, scrapeLoop c4Site "" 2 1 0 0 0 [] = some (data, 2, 0) ∧
      data.length = 2 :=
  c4_limit_stops_walk c4Site "" 2 0 (by decide) (by decide) (by decide)

/- ---------------------------------------------------------------------
   Claim C5 — cards lacking name or link emit nothing.
--------------------------------------------------------------------- -/

/-- C5: a card whose extracted name or extracted href is empty is skipped:
the card loop over it is the card loop over the remaining cards — zero
records are emitted for it and the scraped count is unchanged by it. -/
theorem c5_nonviable_card_skipped (c : Card) (rest : List Card)
    (pn s limit : Nat) (now : String) (d : List PyRecord)
    (h : extractName c = "" ∨ extractLink c = "") :
    processCards pn now limit (c :: rest) s d =
      processCards pn now limit rest s d := by
  by_cases hlim : limit ≤ s
  · rw [processCards_ge pn now limit (c :: rest) s d hlim,
      processCards_ge pn now limit rest s d hlim]
  · cases h with
    | inl hn => simp [processCards, hlim, hn]
    | inr hl =>
      by_cases hn : extractName c = ""
      · simp [processCards, hlim, hn]
      · simp [processCards, hlim, hn, hl]

/-- C5 witness: the theorem at a concrete card with a name but no href;
the loop emits no record and the count stays 0. -/
theorem c5_witness :
    extractLink c5Card = "" ∧
    processCards 1 "" 5 [c5Card] 0 [] = ([], 0) := by
  have h := c5_nonviable_card_skipped c5Card [] 1 0 5 "" []
    (Or.inr (by decide))
  exact ⟨by decide, by rw [h]; rfl⟩

/- ---------------------------------------------------------------------
   Claim C10 — record shape invariants.
--------------------------------------------------------------------- -/

/-- C10: every record in the data of any terminating run of the pagination
loop is well formed — its keys are exactly Name, Link, Page_Number,
Scraped_At, Phone, Rating, Address, Cuisine, Price_Range, Reviews_Count in
order, and every detail key is bound to a Python str, never None; the
details dict always carries exactly the six detail keys (it is initialized
with all six bound to ""); and a missing attribute (get_attribute
returning None) is coerced to "" by the extractor. -/
theorem c10_record_shape :
    (∀ (site : Nat → ListingPage) (now : String) (limit fuel : Nat)
        (data : List PyRecord) (s n : Nat),
      scrapeLoop site now limit fuel 0 0 0 [] = some (data, s, n) →
      ∀ rec ∈ data, recordWellFormed rec = true) ∧
    (∀ f, ((extract_restaurant_details f).1).map Prod.fst = detailKeys) ∧
    (∀ (scope : List Element) (cands : List String) (attr : String)
        (e : Element),
      locatorFirst scope cands = some e →
      e.getAttribute attr = Except.ok none →
      safe_extract_attribute scope cands attr = "") := by
  refine ⟨?_, ?_, ?_⟩
  · intro site now limit fuel data s n h rec hrec
    rcases scrapeLoop_mem site now limit fuel 0 0 0 [] (data, s, n) h rec
      hrec with hmem | ⟨pn, nm, l, f, he⟩
    · simp at hmem
    · rw [he]
      exact record_wf_of_fetch nm l pn now f
  · intro f
    obtain ⟨p, r, a, c, pr, rc, h⟩ := details_shape f
    rw [h]
    rfl
  · intro scope cands attr e h1 h2
    simp [safe_extract_attribute, h1, h2]

/-- C10 witness: the theorem applied to a concrete terminating run (one
record emitted), to the navigation-failed fetch outcome, and to an element
with a missing attribute. -/
theorem c10_witness :
    recordWellFormed (mkRecord "Le Jardin"
      "https://www.tripadvisor.com/Restaurant_Review-g2-d2" 1 "T"
      emptyDetails) = true ∧
    ((extract_restaurant_details FetchOutcome.navFailed).1).map Prod.fst =
      detailKeys ∧
    safe_extract_attribute [c10NoAttrElem] ["a"] "href" = "" := by
  refine ⟨?_, c10_record_shape.2.1 FetchOutcome.navFailed,
    c10_record_shape.2.2 [c10NoAttrElem] ["a"] "href" c10NoAttrElem rfl rfl⟩
  have h := c10_record_shape.1 c10Site "T" 1 2
    [mkRecord "Le Jardin"
      "https://www.tripadvisor.com/Restaurant_Review-g2-d2" 1 "T"
      emptyDetails] 1 0 rfl
  exact h _ (by simp)
